import Mathlib

/-!
Shallow embedding of the 5G AI Kubernetes scheduler (extender server,
inference server, feature extractor, model loader) and proofs about it.

Numeric values (Python floats) are modelled by `ℚ` where the code only uses
field arithmetic, comparisons, `min`/`max` and absolute value, and by `ℝ`
where the code applies `exp`, `sqrt` or a fractional power (`** 1.5`).
Remote telemetry (Prometheus, the Kubernetes API) is modelled by an explicit
environment of query functions; an unreachable backend is the environment
returning `none`.
-/

namespace Scheduler

/-- Result of a Prometheus / Kubernetes telemetry query: `none` models an
unreachable backend, a query error, or an empty result set (the code maps
all of these to its documented default). -/
structure TelemetryEnv where
  cpuLoadOf : String → Option ℚ
  memLoadOf : String → Option ℚ
  podCountOf : Option (String → ℕ)

/-- Mirrors the Pydantic `NodeInfo` model of `inference_server.py` (labels as
an association list; the unused `taints` field is omitted). -/
structure NodeInfo where
  name : String
  cpu_available : ℚ
  memory_available : ℚ
  cpu_capacity : ℚ
  memory_capacity : ℚ
  labels : List (String × String) := []
  network_latency : Option ℚ := none
deriving DecidableEq, Repr

/-- Mirrors the Pydantic `PodInfo` model of `inference_server.py` (the unused
fields are omitted). -/
structure PodInfo where
  name : String
  ns : String
  cpu_request : ℚ
  memory_request : ℚ
  labels : List (String × String) := []
  pod_type : Option String := none
deriving DecidableEq, Repr

/-- An entry of the `existing_pods` context list: a dict with keys `node`
and `type` (either may be absent, modelled as `none`). -/
structure ExistingPod where
  node : Option String := none
  ptype : Option String := none
deriving DecidableEq, Repr

/-! ## Numeric helpers shared by the embedding -/

/-- Arithmetic mean of a list, as in `sum(l)/len(l)` (Lean's division by the
length `0` yields `0`; the code only evaluates this on nonempty lists). -/
def listMean (l : List ℚ) : ℚ := l.sum / l.length

/-- Population variance, as computed both by `np.std(...)**2` and by the
explicit `sum((x - avg)**2 for x in l) / len(l)` of `_default_heuristic`. -/
def listVar (l : List ℚ) : ℚ := (l.map (fun x => (x - listMean l) ^ 2)).sum / l.length

/-- Population standard deviation (`np.std` in `feature_extractor.py`,
`math.sqrt(variance)` in `inference_server.py`). -/
noncomputable def npStd (l : List ℚ) : ℝ := Real.sqrt ((listVar l : ℚ) : ℝ)

/-- Python `int()` applied to a float: truncation toward zero. -/
def pyInt (q : ℚ) : ℤ := if 0 ≤ q then ⌊q⌋ else ⌈q⌉

/-- Clamp to `[0, 1]`, as in `max(0.0, min(1.0, x))`. -/
noncomputable def clamp01 (x : ℝ) : ℝ := max 0 (min 1 x)

/-! ## `ExtenderServer._parse_memory` (`extender_server.py`, lines 279-304)

The code matches `re.match(r'(\d+)([KMGT]?i?)?', s)`: a leading run of
digits, then optionally one of `K`,`M`,`G`,`T`, then optionally `i`.
No match (empty string or no leading digit) yields `0.0`. -/

/-- Multiplier table of `_parse_memory`; an unrecognized or absent unit maps
to `1` via `multipliers.get(unit, 1)`.  All multipliers are integers, so the
table lives in `ℕ`. -/
def memMultiplier (unit : String) : ℕ :=
  if unit = "Ki" then 1024
  else if unit = "Mi" then 1024 ^ 2
  else if unit = "Gi" then 1024 ^ 3
  else if unit = "Ti" then 1024 ^ 4
  else if unit = "K" then 1000
  else if unit = "M" then 1000 ^ 2
  else if unit = "G" then 1000 ^ 3
  else if unit = "T" then 1000 ^ 4
  else 1

/-- Numeric value of a run of decimal digits. -/
def digitsVal (ds : List Char) : ℕ :=
  ds.foldl (fun acc c => 10 * acc + c.toNat - '0'.toNat) 0

/-- Greedy match of the optional unit group `([KMGT]?i?)?` against the
characters following the digits. -/
def matchUnit : List Char → List Char
  | [] => []
  | c :: rest =>
    if c = 'K' ∨ c = 'M' ∨ c = 'G' ∨ c = 'T' then
      match rest with
      | c2 :: _ => if c2 = 'i' then [c, c2] else [c]
      | [] => [c]
    else if c = 'i' then [c]
    else []

/-- `ExtenderServer._parse_memory`: parse a Kubernetes memory quantity into
bytes.  The matched value and the multiplier are both integers, so their
(exact) float product is the cast of their product in `ℕ`. -/
def parse_memory (s : String) : ℚ :=
  if s = "" then 0
  else
    let ds := s.data.takeWhile Char.isDigit
    if ds = [] then 0
    else
      let unit := matchUnit (s.data.drop ds.length)
      ((digitsVal ds * memMultiplier (String.mk unit) : ℕ) : ℚ)

/-! ## `ExtenderServer.prioritize_nodes` and the `/prioritize` route
(`extender_server.py`, lines 110-165, 367-380, 406-421)

The HTTP call to the inference server is modelled by an
`Except String Prediction` input: `Except.error` models a
`requests.exceptions.RequestException` or any other exception raised while
scoring, both of which the method catches. -/

/-- A candidate node as seen by the extender: only `metadata.name` is read
when building the response (`node.get('metadata', {}).get('name')`, which
may be absent, hence `Option`). -/
structure K8sNode where
  name : Option String := none
deriving DecidableEq, Repr

/-- One entry of `hostPriorities`. -/
structure HostPriority where
  host : Option String
  score : ℤ
deriving DecidableEq, Repr

/-- Body of the extender's prioritize response. -/
structure PrioritizeResponse where
  hostPriorities : List HostPriority
  error : Option String
deriving DecidableEq, Repr

/-- The inference server's response as consumed by the extender:
`node_scores` is a dict from node name to float score. -/
structure Prediction where
  node_scores : List (String × ℚ)
deriving DecidableEq, Repr

/-- Score entry built for one node on the success path:
`int(prediction['node_scores'].get(node_name, 0) * 10)`. -/
def nodePriority (pred : Prediction) (node : K8sNode) : HostPriority :=
  let s : ℚ :=
    match node.name with
    | some nm => (pred.node_scores.lookup nm).getD 0
    | none => 0
  { host := node.name, score := pyInt (s * 10) }

/-- `ExtenderServer._default_prioritization`: uniform score `5` for every
node, `error: None`. -/
def default_prioritization (nodes : List K8sNode) : PrioritizeResponse :=
  { hostPriorities := nodes.map (fun n => { host := n.name, score := 5 }), error := none }

/-- `ExtenderServer.prioritize_nodes`: on a successful inference call,
convert each score; on any exception raised while scoring, fall back to
`_default_prioritization`. -/
def prioritize_nodes (nodes : List K8sNode) (inference : Except String Prediction) :
    PrioritizeResponse :=
  match inference with
  | Except.ok pred => { hostPriorities := nodes.map (nodePriority pred), error := none }
  | Except.error _ => default_prioritization nodes

/-- Parsed request body of the `/prioritize` route: the node items extracted
by `data.get('nodes', {}).get('items', [])` (missing fields default to `[]`). -/
structure RouteData where
  nodes : List K8sNode
deriving DecidableEq, Repr

/-- An HTTP response of the route: status code and JSON body. -/
structure HttpResult where
  status : ℕ
  body : PrioritizeResponse
deriving DecidableEq, Repr

/-- The Flask `/prioritize` handler: `body = none` models a request whose
JSON extraction fails (`request.get_json()` raises, or returns `None` so
that `data.get` raises `AttributeError`); the handler's `except` then
returns status 500 with empty `hostPriorities` and the exception text. -/
def prioritizeRoute (body : Option RouteData) (inference : Except String Prediction) :
    HttpResult :=
  match body with
  | some d => { status := 200, body := prioritize_nodes d.nodes inference }
  | none => { status := 500, body := { hostPriorities := [], error := some "AttributeError" } }

/-! ## `FeatureExtractor` (`feature_extractor.py`)

The Prometheus helpers `_get_node_cpu_load` / `_get_node_memory_load` return
`float(result) if result else 0.0`, and `0.0` on any exception: both are the
`getD 0` of the telemetry environment.  `_get_node_pod_density` returns `0.0`
when the Kubernetes client is unavailable or errors, else
`min(1.0, len(pods)/100)`. -/

def _get_node_cpu_load (env : TelemetryEnv) (node_name : String) : ℚ :=
  (env.cpuLoadOf node_name).getD 0

def _get_node_memory_load (env : TelemetryEnv) (node_name : String) : ℚ :=
  (env.memLoadOf node_name).getD 0

def _get_node_pod_density (env : TelemetryEnv) (node_name : String) : ℚ :=
  match env.podCountOf with
  | none => 0
  | some count => min 1 ((count node_name : ℚ) / 100)

/-- `FeatureExtractor._calculate_label_compatibility`: fraction of the pod's
`node-selector/` labels matched by the node's labels; `0.5` when the pod has
no labels or no selector labels. -/
def _calculate_label_compatibility (node_labels pod_labels : List (String × String)) : ℚ :=
  if pod_labels = [] then 1 / 2
  else
    let selectors := pod_labels.filter (fun kv => kv.1.startsWith "node-selector/")
    let matched := selectors.filter (fun kv =>
      node_labels.lookup (kv.1.replace "node-selector/" "") = some kv.2)
    if selectors.length > 0 then (matched.length : ℚ) / selectors.length else 1 / 2

/-- `FeatureExtractor._get_pod_type_score`: lookup in the literal score dict,
default `0.5`. -/
def _get_pod_type_score : Option String → ℚ
  | some "UPF" => 9 / 10
  | some "SMF" => 7 / 10
  | some "CU" => 6 / 10
  | some "DU" => 8 / 10
  | none => 1 / 2
  | some _ => 1 / 2

/-- `FeatureExtractor._count_same_type_pods`: `0.0` when `pod_type` is falsy
(`None` or the empty string) or `existing_pods` is falsy (empty), else the
number of existing pods on this node with the same type. -/
def _count_same_type_pods (node_name : String) (pod_type : Option String)
    (existing_pods : List ExistingPod) : ℚ :=
  if pod_type = none ∨ pod_type = some "" ∨ existing_pods = [] then 0
  else
    ((existing_pods.filter
      (fun p => p.node == some node_name && p.ptype == pod_type)).length : ℚ)

/-- Projected CPU load of the evaluated node after placing the pod
(`min(1.0, cpu_load + pod_cpu_request / cpu_capacity)`); a capacity `≤ 0`
skips the increase. -/
def futureCpuLoad (env : TelemetryEnv) (pod : PodInfo) (node : NodeInfo) : ℚ :=
  let cpu_load := _get_node_cpu_load env node.name
  if node.cpu_capacity > 0 then min 1 (cpu_load + pod.cpu_request / node.cpu_capacity)
  else cpu_load

/-- Projected memory load of the evaluated node after placing the pod. -/
def futureMemLoad (env : TelemetryEnv) (pod : PodInfo) (node : NodeInfo) : ℚ :=
  let memory_load := _get_node_memory_load env node.name
  if node.memory_capacity > 0 then min 1 (memory_load + pod.memory_request / node.memory_capacity)
  else memory_load

/-- Projected post-placement CPU loads across the candidate set: the
evaluated node contributes its projected load, every other entry its current
load.  Built identically in `extract_node_features` and in
`_default_heuristic`. -/
def futureCpuLoads (env : TelemetryEnv) (pod : PodInfo) (all_nodes : List NodeInfo)
    (node : NodeInfo) : List ℚ :=
  all_nodes.map (fun n =>
    if n.name = node.name then futureCpuLoad env pod node
    else _get_node_cpu_load env n.name)

/-- Projected post-placement memory loads across the candidate set. -/
def futureMemLoads (env : TelemetryEnv) (pod : PodInfo) (all_nodes : List NodeInfo)
    (node : NodeInfo) : List ℚ :=
  all_nodes.map (fun n =>
    if n.name = node.name then futureMemLoad env pod node
    else _get_node_memory_load env n.name)

/-- Standard deviation of the projected loads, `0.0` when the list has at
most one element (`if len(future_cpu_loads) > 1`). -/
noncomputable def stdTerm (l : List ℚ) : ℝ :=
  if l.length > 1 then npStd l else 0

/-- Decay applied to a standard deviation:
`np.exp(-25.0 * std) if std >= 0 else 0.0`. -/
noncomputable def expDecay (std : ℝ) : ℝ :=
  if 0 ≤ std then Real.exp (-25 * std) else 0

/-- Shared core of the balance computation: the `exp(-25*std)` decays of the
projected CPU and memory standard deviations, weighted 50/50 and clamped to
`[0,1]`.  This is the whole of step 5 of `_default_heuristic` and the body of
the `len(all_nodes) > 1` branch of step 6 of `extract_node_features`. -/
noncomputable def balanceCore (env : TelemetryEnv) (pod : PodInfo)
    (all_nodes : List NodeInfo) (node : NodeInfo) : ℝ :=
  clamp01 (expDecay (stdTerm (futureCpuLoads env pod all_nodes node)) * 0.5
    + expDecay (stdTerm (futureMemLoads env pod all_nodes node)) * 0.5)

/-- The `balance_score` feature of `FeatureExtractor.extract_node_features`
(step 6): the balance core when the candidate list has more than one node,
the neutral `0.5` otherwise (`if all_nodes and len(all_nodes) > 1`). -/
noncomputable def balance_score (env : TelemetryEnv) (node : NodeInfo) (pod : PodInfo)
    (all_nodes : List NodeInfo) : ℝ :=
  if all_nodes.length > 1 then balanceCore env pod all_nodes node else 1 / 2

/-- Available-resource ratio of a node
(`cpu_available / cpu_capacity if cpu_capacity > 0 else 0.0`), computed
identically in `extract_node_features` and `_default_heuristic`. -/
def cpuRatio (node : NodeInfo) : ℚ :=
  if node.cpu_capacity > 0 then node.cpu_available / node.cpu_capacity else 0

/-- Available-memory ratio of a node. -/
def memRatio (node : NodeInfo) : ℚ :=
  if node.memory_capacity > 0 then node.memory_available / node.memory_capacity else 0

/-- Normalized network latency feature: `min(1.0, latency/100.0)` when
measured, the default `0.5` when `None`. -/
def latencyNormalized : Option ℚ → ℚ
  | some l => min 1 (l / 100)
  | none => 1 / 2

/-- `FeatureExtractor.extract_node_features`: the 11-entry feature vector,
in source order.  The optional `existing_pods` / `all_nodes` arguments
default to the falsy `None`, modelled by `[]`. -/
noncomputable def extract_node_features (env : TelemetryEnv) (node : NodeInfo)
    (pod : PodInfo) (existing_pods : List ExistingPod) (all_nodes : List NodeInfo) :
    List ℝ :=
  [((cpuRatio node : ℚ) : ℝ),
   ((memRatio node : ℚ) : ℝ),
   ((latencyNormalized node.network_latency : ℚ) : ℝ),
   ((_get_node_cpu_load env node.name : ℚ) : ℝ),
   ((_get_node_memory_load env node.name : ℚ) : ℝ),
   ((_get_node_pod_density env node.name : ℚ) : ℝ),
   balance_score env node pod all_nodes,
   ((max 0 ((_get_node_cpu_load env node.name + _get_node_memory_load env node.name) / 2
       - 7 / 10) : ℚ) : ℝ),
   ((_calculate_label_compatibility node.labels pod.labels : ℚ) : ℝ),
   ((_get_pod_type_score pod.pod_type : ℚ) : ℝ),
   ((_count_same_type_pods node.name pod.pod_type existing_pods / 10 : ℚ) : ℝ)]

/-- `FeatureExtractor.get_feature_names`. -/
def get_feature_names : List String :=
  ["cpu_available_ratio",
   "memory_available_ratio",
   "network_latency_normalized",
   "cpu_load_avg",
   "memory_load_avg",
   "pod_density",
   "balance_score",
   "overload_penalty",
   "label_compatibility",
   "pod_type_score",
   "same_type_pods_count"]

/-! ## `_default_heuristic` (`inference_server.py`, lines 193-310) -/

/-- CPU usage term of the heuristic (and of the stub model): optimal band
`[0.30, 0.60]`, linear ramp below, penalized decay above. -/
def cpuUsageScore (cpu_load : ℚ) : ℚ :=
  if 3 / 10 ≤ cpu_load ∧ cpu_load ≤ 6 / 10 then 1
  else if cpu_load < 3 / 10 then 7 / 10 + cpu_load / (3 / 10) * (3 / 10)
  else max 0 (1 - (cpu_load - 6 / 10) * (5 / 2))

/-- Latency term of `_default_heuristic`: when the latency is measured,
`(1.0 - min(1.0, latency/100.0)) ** 1.5 * 0.15`; when it is `None` the
`if` is skipped and the term contributes nothing. -/
noncomputable def latencyTerm : Option ℚ → ℝ
  | some l => ((1 - (min 1 (l / 100) : ℚ) : ℝ) ^ (1.5 : ℝ)) * 0.15
  | none => 0

/-- Per-node score of `_default_heuristic`: the weighted sum of the CPU
usage, latency, memory, available-resources and balance terms. -/
noncomputable def defaultHeuristicScore (env : TelemetryEnv) (pod : PodInfo)
    (candidate_nodes : List NodeInfo) (node : NodeInfo) : ℝ :=
  ((cpuUsageScore (_get_node_cpu_load env node.name) * (15 / 100) : ℚ) : ℝ)
    + latencyTerm node.network_latency
    + (((1 - _get_node_memory_load env node.name) * (8 / 100) : ℚ) : ℝ)
    + ((cpuRatio node * (1 / 100) + memRatio node * (1 / 100) : ℚ) : ℝ)
    + balanceCore env pod candidate_nodes node * (60 / 100)

/-! ## `StubModel` and `ModelLoader` (`model_loader.py`) -/

/-- `StubModel.predict` on one feature row (lines 150-224): the built-in
heuristic over the 11 documented features, with fallbacks for shorter rows.
Out-of-range indexing is modelled by `getD`, which the length guards keep
unreachable exactly where Python indexing would be. -/
noncomputable def stubPredictOne (f : List ℚ) : ℝ :=
  if f.length < 2 then 1 / 2
  else
    let cpu_ratio := f.getD 0 0
    let memory_ratio := f.getD 1 0
    let t1 : ℚ :=
      if 4 ≤ f.length then cpuUsageScore (f.getD 3 0) * (15 / 100)
      else cpu_ratio * (15 / 100)
    let t2 : ℝ :=
      if 3 ≤ f.length then ((1 - f.getD 2 0 : ℚ) : ℝ) ^ (1.5 : ℝ) * 0.15
      else (1 - 0.5) * 0.15
    let t3 : ℚ :=
      if 5 ≤ f.length then (1 - f.getD 4 0) * (8 / 100)
      else memory_ratio * (8 / 100)
    let t4 : ℚ := cpu_ratio * (1 / 100) + memory_ratio * (1 / 100)
    let t5 : ℝ :=
      if 7 ≤ f.length then ((f.getD 6 0 : ℚ) : ℝ) * (60 / 100)
      else if 5 ≤ f.length then
        let cpu_load : ℚ := if 4 ≤ f.length then f.getD 3 0 else 1 / 2
        let mem_load : ℚ := f.getD 4 0
        let cpu_deviation := |cpu_load - 1 / 2|
        let mem_deviation := |mem_load - 1 / 2|
        let cpu_balance : ℝ :=
          if cpu_deviation > 0 then Real.exp (-25 * (cpu_deviation : ℝ)) else 1
        let mem_balance : ℝ :=
          if mem_deviation > 0 then Real.exp (-25 * (mem_deviation : ℝ)) else 1
        clamp01 (cpu_balance * 0.5 + mem_balance * 0.5) * (60 / 100)
      else 0
    clamp01 ((t1 : ℝ) + t2 + (t3 : ℝ) + (t4 : ℝ) + t5)

/-- `StubModel.predict` over a batch of feature rows. -/
noncomputable def stubPredict (features : List (List ℚ)) : List ℝ :=
  features.map stubPredictOne

/-- A loaded (pickled) model object as seen through `hasattr`: it may expose
a `predict` method, a `predict_proba` method, either of which may raise when
called (`Except.error`). -/
structure MLModel where
  predictFn : Option (List (List ℚ) → Except String (List ℝ)) := none
  predictProbaFn : Option (List (List ℚ) → Except String (List (List ℝ))) := none

/-- Persistent state of a `ModelLoader` instance: the fields assigned in
`__init__` / `load_model` and read by `predict`. -/
structure LoaderState where
  model : Option MLModel := none
  scaler : Option (List (List ℚ) → Except String (List (List ℚ))) := none
  model_version : String := "stub-v1.0"
  is_model_loaded : Bool := false

/-- `ModelLoader.is_loaded`. -/
def is_loaded (st : LoaderState) : Bool :=
  st.is_model_loaded && st.model.isSome

/-- Return value of `ModelLoader.predict`.  An unloaded loader raises
(`Except.error`); a scaler failure is caught and the raw features are used;
the model's `predict` is preferred, then `predict_proba` (column 1 when it
has more than one column, else column 0), and only a model exposing neither
is replaced by a fresh `StubModel`'s prediction.  An error raised by the
model's own `predict`/`predict_proba` propagates to the caller. -/
noncomputable def loaderPredictResult (st : LoaderState) (features : List (List ℚ)) :
    Except String (List ℝ) :=
  if ¬ is_loaded st then Except.error "Modele non charge"
  else
    match st.model with
    | none => Except.error "Modele non charge"
    | some m =>
      let features_array : List (List ℚ) :=
        match st.scaler with
        | none => features
        | some sc =>
          match sc features with
          | Except.ok transformed => transformed
          | Except.error _ => features
      match m.predictFn with
      | some p => p features_array
      | none =>
        match m.predictProbaFn with
        | some pp =>
          match pp features_array with
          | Except.ok proba =>
            if ((proba.head?.map List.length).getD 0) > 1 then
              Except.ok (proba.map (fun row => row.getD 1 0))
            else
              Except.ok (proba.map (fun row => row.getD 0 0))
          | Except.error e => Except.error e
        | none => Except.ok (stubPredict features_array)

/-- `ModelLoader.predict`, as explicit state passing: the second component
is the loader state after the call.  The method body reads but never
assigns any `self` field, so the state out is the state in. -/
noncomputable def loaderPredict (st : LoaderState) (features : List (List ℚ)) :
    Except String (List ℝ) × LoaderState :=
  (loaderPredictResult st features, st)

/-! ## Concrete instances used by the theorems below -/

/-- Telemetry reporting cpu and memory load `0.8` for node `A` and `0.2`
for every other node. -/
def envAB : TelemetryEnv :=
  { cpuLoadOf := fun n => if n = "A" then some (8 / 10) else some (2 / 10),
    memLoadOf := fun n => if n = "A" then some (8 / 10) else some (2 / 10),
    podCountOf := none }

/-- Fully unreachable telemetry: every Prometheus query fails and the
Kubernetes client is unavailable. -/
def envNone : TelemetryEnv :=
  { cpuLoadOf := fun _ => none, memLoadOf := fun _ => none, podCountOf := none }

/-- Node `A`, unit capacities. -/
def nodeA : NodeInfo :=
  { name := "A", cpu_available := 1, memory_available := 1,
    cpu_capacity := 1, memory_capacity := 1 }

/-- Node `B`, unit capacities. -/
def nodeB : NodeInfo :=
  { name := "B", cpu_available := 1, memory_available := 1,
    cpu_capacity := 1, memory_capacity := 1 }

/-- A pod requesting 10% of the (unit) node capacities. -/
def podTen : PodInfo :=
  { name := "p", ns := "default", cpu_request := 1 / 10, memory_request := 1 / 10 }

/-- A node with zero (hence `≤ 0`) CPU and memory capacity. -/
def nodeZ1 : NodeInfo :=
  { name := "Z1", cpu_available := 0, memory_available := 0,
    cpu_capacity := 0, memory_capacity := 0 }

/-- A second zero-capacity node. -/
def nodeZ2 : NodeInfo :=
  { name := "Z2", cpu_available := 0, memory_available := 0,
    cpu_capacity := 0, memory_capacity := 0 }

/-- A node with no measured network latency, unit capacities. -/
def nodeL1 : NodeInfo :=
  { name := "L1", cpu_available := 1, memory_available := 1,
    cpu_capacity := 1, memory_capacity := 1, network_latency := none }

/-- A node identical to `nodeL1` except for its name and a measured latency
of 10 ms. -/
def nodeL2 : NodeInfo :=
  { name := "L2", cpu_available := 1, memory_available := 1,
    cpu_capacity := 1, memory_capacity := 1, network_latency := some 10 }

/-- An inference response scoring node `n1` at `0.99`. -/
def predNinetyNine : Prediction := { node_scores := [("n1", 99 / 100)] }

/-- A loaded model whose `predict` method raises. -/
def failingModel : MLModel := { predictFn := some (fun _ => Except.error "boom") }

/-- Loader state holding `failingModel`, no scaler. -/
def loadedFailing : LoaderState :=
  { model := some failingModel, scaler := none, is_model_loaded := true }

/-- A loaded model exposing neither `predict` nor `predict_proba`. -/
def bareModel : MLModel := {}

/-- Loader state holding `bareModel`, no scaler. -/
def loadedBare : LoaderState :=
  { model := some bareModel, scaler := none, is_model_loaded := true }

/-! ## Helper lemmas -/

lemma npStd_eq_of_var (l : List ℚ) (q : ℚ) (hq : 0 ≤ q) (h : listVar l = q ^ 2) :
    npStd l = (q : ℝ) := by
  unfold npStd
  rw [h]
  push_cast
  exact Real.sqrt_sq (by exact_mod_cast hq)

lemma clamp01_exp (t : ℝ) (ht : t ≤ 0) : clamp01 (Real.exp t) = Real.exp t := by
  unfold clamp01
  rw [min_eq_right (Real.exp_le_one_iff.mpr ht), max_eq_right (Real.exp_pos t).le]

lemma balanceCore_eq_exp (env : TelemetryEnv) (pod : PodInfo) (nodes : List NodeInfo)
    (node : NodeInfo) (q : ℚ) (hq : 0 ≤ q)
    (hlc : (futureCpuLoads env pod nodes node).length > 1)
    (hlm : (futureMemLoads env pod nodes node).length > 1)
    (hc : listVar (futureCpuLoads env pod nodes node) = q ^ 2)
    (hm : listVar (futureMemLoads env pod nodes node) = q ^ 2) :
    balanceCore env pod nodes node = Real.exp (-25 * (q : ℝ)) := by
  have hq' : (0 : ℝ) ≤ (q : ℝ) := by exact_mod_cast hq
  unfold balanceCore stdTerm expDecay
  rw [if_pos hlc, if_pos hlm, npStd_eq_of_var _ q hq hc, npStd_eq_of_var _ q hq hm,
    if_pos hq']
  have hsum : Real.exp (-25 * (q : ℝ)) * 0.5 + Real.exp (-25 * (q : ℝ)) * 0.5
      = Real.exp (-25 * (q : ℝ)) := by ring
  rw [hsum]
  exact clamp01_exp _ (mul_nonpos_of_nonpos_of_nonneg (by norm_num) hq')

lemma listMean_perm {l1 l2 : List ℚ} (h : l1.Perm l2) : listMean l1 = listMean l2 := by
  unfold listMean
  rw [h.sum_eq, h.length_eq]

lemma listVar_perm {l1 l2 : List ℚ} (h : l1.Perm l2) : listVar l1 = listVar l2 := by
  unfold listVar
  rw [listMean_perm h, (h.map (fun x => (x - listMean l2) ^ 2)).sum_eq, h.length_eq]

lemma npStd_perm {l1 l2 : List ℚ} (h : l1.Perm l2) : npStd l1 = npStd l2 := by
  unfold npStd
  rw [listVar_perm h]

lemma stdTerm_perm {l1 l2 : List ℚ} (h : l1.Perm l2) : stdTerm l1 = stdTerm l2 := by
  unfold stdTerm
  rw [h.length_eq, npStd_perm h]

/-! ## Claim theorems -/

/-- C7: `_parse_memory` extracts the leading integer and optional suffix;
binary suffixes `Ki`/`Mi`/`Gi`/`Ti` multiply by `1024^n`, decimal suffixes
`K`/`M`/`G`/`T` by `1000^n`, and an absent or unrecognized suffix yields
multiplier 1, so `parse_memory "128Mi" = 128·1024²`,
`parse_memory "1Gi" = 1024³` and `parse_memory "100M" = 100·1000²`. -/
theorem parse_memory_suffix_semantics :
    parse_memory "128Mi" = 128 * 1024 ^ 2 ∧
    parse_memory "1Gi" = 1024 ^ 3 ∧
    parse_memory "100M" = 100 * 1000 ^ 2 ∧
    parse_memory "64Ki" = 64 * 1024 ∧
    parse_memory "2Ti" = 2 * 1024 ^ 4 ∧
    parse_memory "5K" = 5 * 1000 ∧
    parse_memory "3G" = 3 * 1000 ^ 3 ∧
    parse_memory "7T" = 7 * 1000 ^ 4 ∧
    parse_memory "42" = 42 ∧
    parse_memory "9X" = 9 ∧
    parse_memory "128i" = 128 := by
  refine ⟨?_, ?_, ?_, ?_, ?_, ?_, ?_, ?_, ?_, ?_, ?_⟩
  · rw [show parse_memory "128Mi" = ((134217728 : ℕ) : ℚ) from rfl]
    norm_num
  · rw [show parse_memory "1Gi" = ((1073741824 : ℕ) : ℚ) from rfl]
    norm_num
  · rw [show parse_memory "100M" = ((100000000 : ℕ) : ℚ) from rfl]
    norm_num
  · rw [show parse_memory "64Ki" = ((65536 : ℕ) : ℚ) from rfl]
    norm_num
  · rw [show parse_memory "2Ti" = ((2199023255552 : ℕ) : ℚ) from rfl]
    norm_num
  · rw [show parse_memory "5K" = ((5000 : ℕ) : ℚ) from rfl]
    norm_num
  · rw [show parse_memory "3G" = ((3000000000 : ℕ) : ℚ) from rfl]
    norm_num
  · rw [show parse_memory "7T" = ((7000000000000 : ℕ) : ℚ) from rfl]
    norm_num
  · rw [show parse_memory "42" = ((42 : ℕ) : ℚ) from rfl]
    norm_num
  · rw [show parse_memory "9X" = ((9 : ℕ) : ℚ) from rfl]
    norm_num
  · rw [show parse_memory "128i" = ((128 : ℕ) : ℚ) from rfl]
    norm_num

/-- C3 counterexample: the extender converts a float score with Python
`int()`, which truncates: for the score `0.99` the reported integer is `9`,
but `round(0.99 * 10) = 10`. -/
theorem prioritize_round_counterexample :
    (prioritize_nodes [{ name := some "n1" }] (Except.ok predNinetyNine)).hostPriorities
      = [{ host := some "n1", score := 9 }] ∧
    round ((99 / 100 : ℚ) * 10) = (10 : ℤ) ∧ (9 : ℤ) ≠ 10 := by
  have hfloor : pyInt ((99 / 100 : ℚ) * 10) = 9 := by
    unfold pyInt
    rw [if_pos (by norm_num), Int.floor_eq_iff]
    norm_num
  refine ⟨?_, ?_, by decide⟩
  · have h1 : (prioritize_nodes [{ name := some "n1" }]
        (Except.ok predNinetyNine)).hostPriorities
        = [{ host := some "n1", score := pyInt ((99 / 100 : ℚ) * 10) }] := rfl
    rw [h1, hfloor]
  · rw [round_eq, Int.floor_eq_iff]
    norm_num

/-- C3 (amended): for a float score `s ∈ [0,1]` returned for a node, the
`/prioritize` response reports the integer `⌊s * 10⌋` (Python `int()`
truncation, not `round`), an integer between 0 and 10, as that node's entry
of `hostPriorities`. -/
theorem prioritize_score_floor (pred : Prediction) (node : K8sNode) (nodes : List K8sNode)
    (nm : String) (s : ℚ) (hname : node.name = some nm)
    (hs : pred.node_scores.lookup nm = some s) (h0 : 0 ≤ s) (h1 : s ≤ 1)
    (hmem : node ∈ nodes) :
    (nodePriority pred node).score = ⌊s * 10⌋ ∧
    0 ≤ (nodePriority pred node).score ∧ (nodePriority pred node).score ≤ 10 ∧
    nodePriority pred node ∈ (prioritize_nodes nodes (Except.ok pred)).hostPriorities := by
  have h010 : (0 : ℚ) ≤ s * 10 := by positivity
  have hval : (nodePriority pred node).score = pyInt (s * 10) := by
    simp [nodePriority, hname, hs]
  have hpy : pyInt (s * 10) = ⌊s * 10⌋ := by
    unfold pyInt
    rw [if_pos h010]
  have hscore : (nodePriority pred node).score = ⌊s * 10⌋ := hval.trans hpy
  refine ⟨hscore, ?_, ?_, ?_⟩
  · rw [hscore]
    exact Int.floor_nonneg.mpr h010
  · rw [hscore]
    have h10 : s * 10 ≤ (10 : ℚ) := by nlinarith
    calc ⌊s * 10⌋ ≤ ⌊(10 : ℚ)⌋ := Int.floor_mono h10
    _ = 10 := by norm_num
  · simpa [prioritize_nodes] using List.mem_map_of_mem (nodePriority pred) hmem

/-- Witness for `prioritize_score_floor` at the concrete score `0.99`. -/
theorem prioritize_score_floor_witness :
    (nodePriority predNinetyNine { name := some "n1" }).score = ⌊(99 / 100 : ℚ) * 10⌋ ∧
    0 ≤ (nodePriority predNinetyNine { name := some "n1" }).score ∧
    (nodePriority predNinetyNine { name := some "n1" }).score ≤ 10 ∧
    nodePriority predNinetyNine { name := some "n1" }
      ∈ (prioritize_nodes [{ name := some "n1" }]
          (Except.ok predNinetyNine)).hostPriorities :=
  prioritize_score_floor predNinetyNine { name := some "n1" } [{ name := some "n1" }]
    "n1" (99 / 100) rfl rfl (by norm_num) (by norm_num) (by decide)

/-- C4 counterexample: a request whose JSON body cannot be extracted hits
the route's `except` branch and is answered with HTTP 500 and an empty
`hostPriorities` list, not with the uniform neutral score 5. -/
theorem prioritize_malformed_counterexample :
    prioritizeRoute none (Except.error "connection refused")
      = { status := 500, body := { hostPriorities := [], error := some "AttributeError" } } ∧
    (500 : ℕ) ≠ 200 := by
  exact ⟨rfl, by decide⟩

/-- C4 (amended): when the request body parses and any exception occurs
while scoring (network failure toward the inference server, parsing or
scaling failure inside it), the service answers HTTP 200 with the uniform
neutral score 5 for every node of the request; only a request whose JSON
body cannot be extracted is answered with an HTTP 500 error. -/
theorem prioritize_scoring_error_uniform_five (nodes : List K8sNode) (err : String) :
    prioritizeRoute (some { nodes := nodes }) (Except.error err)
      = { status := 200,
          body := { hostPriorities := nodes.map (fun n => { host := n.name, score := 5 }),
                    error := none } } := by
  simp [prioritizeRoute, prioritize_nodes, default_prioritization]

/-- C10: on the success path, a node whose name is absent from the returned
`node_scores` dict gets the integer score 0 (from `.get(name, 0)`), not the
neutral 5 used on whole-call failure. -/
theorem missing_node_scored_zero (pred : Prediction) (node : K8sNode) (nodes : List K8sNode)
    (nm : String) (hname : node.name = some nm)
    (hmiss : pred.node_scores.lookup nm = none) (hmem : node ∈ nodes) :
    (nodePriority pred node).score = 0 ∧
    nodePriority pred node ∈ (prioritize_nodes nodes (Except.ok pred)).hostPriorities ∧
    (0 : ℤ) ≠ 5 := by
  refine ⟨?_, ?_, by decide⟩
  · simp [nodePriority, hname, hmiss, pyInt]
  · simpa [prioritize_nodes] using List.mem_map_of_mem (nodePriority pred) hmem

/-- Witness for `missing_node_scored_zero`: node `n2` is not among the
scores returned by `predNinetyNine`. -/
theorem missing_node_scored_zero_witness :
    (nodePriority predNinetyNine { name := some "n2" }).score = 0 ∧
    nodePriority predNinetyNine { name := some "n2" }
      ∈ (prioritize_nodes [{ name := some "n2" }]
          (Except.ok predNinetyNine)).hostPriorities ∧
    (0 : ℤ) ≠ 5 :=
  missing_node_scored_zero predNinetyNine { name := some "n2" } [{ name := some "n2" }]
    "n2" rfl (by decide) (by decide)

/-- C2 counterexample: with two zero-capacity candidates and unreachable
telemetry (all loads 0), every referenced capacity is `≤ 0`, yet
`balance_score` is `exp(0) = 1`, not the neutral `0.5`: a capacity `≤ 0`
does not produce the neutral score. -/
theorem balance_zero_capacity_counterexample :
    nodeZ1.cpu_capacity ≤ 0 ∧ nodeZ1.memory_capacity ≤ 0 ∧
    ([nodeZ1, nodeZ2] : List NodeInfo).length = 2 ∧
    balance_score envNone nodeZ1 podTen [nodeZ1, nodeZ2] = 1 ∧
    (1 : ℝ) ≠ 1 / 2 := by
  have hc : futureCpuLoads envNone podTen [nodeZ1, nodeZ2] nodeZ1 = [0, 0] := rfl
  have hm : futureMemLoads envNone podTen [nodeZ1, nodeZ2] nodeZ1 = [0, 0] := rfl
  have hvc : listVar (futureCpuLoads envNone podTen [nodeZ1, nodeZ2] nodeZ1) = 0 ^ 2 := by
    rw [hc]
    norm_num [listVar, listMean]
  have hvm : listVar (futureMemLoads envNone podTen [nodeZ1, nodeZ2] nodeZ1) = 0 ^ 2 := by
    rw [hm]
    norm_num [listVar, listMean]
  refine ⟨le_rfl, le_rfl, rfl, ?_, by norm_num⟩
  unfold balance_score
  rw [if_pos (by norm_num)]
  rw [balanceCore_eq_exp envNone podTen [nodeZ1, nodeZ2] nodeZ1 0 le_rfl
    (by rw [hc]; norm_num) (by rw [hm]; norm_num) hvc hvm]
  norm_num [Real.exp_zero]

/-- C2 (amended): `balance_score` is the neutral `0.5` whenever the
candidate list has fewer than 2 nodes; a node capacity `≤ 0` does not yield
`0.5` — it only makes the projected load increase for that resource be
skipped, the decay formula still being applied. -/
theorem balance_score_neutral_conditions (env : TelemetryEnv) (node : NodeInfo)
    (pod : PodInfo) (all_nodes : List NodeInfo) :
    (all_nodes.length ≤ 1 → balance_score env node pod all_nodes = 1 / 2) ∧
    (node.cpu_capacity ≤ 0 →
      futureCpuLoad env pod node = _get_node_cpu_load env node.name) ∧
    (node.memory_capacity ≤ 0 →
      futureMemLoad env pod node = _get_node_memory_load env node.name) := by
  refine ⟨fun h => ?_, fun h => ?_, fun h => ?_⟩
  · unfold balance_score
    rw [if_neg (by omega)]
  · unfold futureCpuLoad
    rw [if_neg (not_lt.mpr h)]
  · unfold futureMemLoad
    rw [if_neg (not_lt.mpr h)]

/-- Witness for `balance_score_neutral_conditions`: a single-candidate list
gives the neutral score, and `nodeZ1`'s zero capacities skip the projected
increases. -/
theorem balance_score_neutral_conditions_witness :
    balance_score envNone nodeZ1 podTen [nodeZ1] = 1 / 2 ∧
    futureCpuLoad envNone podTen nodeZ1 = _get_node_cpu_load envNone nodeZ1.name ∧
    futureMemLoad envNone podTen nodeZ1 = _get_node_memory_load envNone nodeZ1.name :=
  ⟨(balance_score_neutral_conditions envNone nodeZ1 podTen [nodeZ1]).1 (by norm_num),
   (balance_score_neutral_conditions envNone nodeZ1 podTen [nodeZ1]).2.1 le_rfl,
   (balance_score_neutral_conditions envNone nodeZ1 podTen [nodeZ1]).2.2 le_rfl⟩

/-- C6: `balance_score` is invariant under any permutation of the candidate
list — it is a function of the multiset of projected load values, not of
their order. -/
theorem balance_score_perm_invariant (env : TelemetryEnv) (node : NodeInfo)
    (pod : PodInfo) {l1 l2 : List NodeInfo} (h : l1.Perm l2) :
    balance_score env node pod l1 = balance_score env node pod l2 := by
  have hc : (futureCpuLoads env pod l1 node).Perm (futureCpuLoads env pod l2 node) := by
    unfold futureCpuLoads
    exact h.map _
  have hm : (futureMemLoads env pod l1 node).Perm (futureMemLoads env pod l2 node) := by
    unfold futureMemLoads
    exact h.map _
  unfold balance_score
  rw [h.length_eq]
  by_cases hl : l2.length > 1
  · rw [if_pos hl, if_pos hl]
    unfold balanceCore
    rw [stdTerm_perm hc, stdTerm_perm hm]
  · rw [if_neg hl, if_neg hl]

/-- Witness for `balance_score_perm_invariant` on the swap of a two-node
candidate list. -/
theorem balance_score_perm_invariant_witness :
    balance_score envAB nodeA podTen [nodeA, nodeB]
      = balance_score envAB nodeA podTen [nodeB, nodeA] :=
  balance_score_perm_invariant envAB nodeA podTen (List.Perm.swap nodeB nodeA [])

/-- C8: feature extraction always returns a vector of exactly 11 entries,
matching the 11 exported feature names; when the telemetry query for a load
fails the corresponding entry defaults to `0.0`, and an unknown network
latency yields the neutral `0.5` entry. -/
theorem extract_features_total_defaults (env : TelemetryEnv) (node : NodeInfo)
    (pod : PodInfo) (existing_pods : List ExistingPod) (all_nodes : List NodeInfo) :
    (extract_node_features env node pod existing_pods all_nodes).length = 11 ∧
    get_feature_names.length = 11 ∧
    (env.cpuLoadOf node.name = none →
      (extract_node_features env node pod existing_pods all_nodes)[3]? = some 0) ∧
    (env.memLoadOf node.name = none →
      (extract_node_features env node pod existing_pods all_nodes)[4]? = some 0) ∧
    (node.network_latency = none →
      (extract_node_features env node pod existing_pods all_nodes)[2]? = some (1 / 2 : ℝ)) := by
  refine ⟨rfl, rfl, fun h => ?_, fun h => ?_, fun h => ?_⟩
  · simp [extract_node_features, _get_node_cpu_load, h]
  · simp [extract_node_features, _get_node_memory_load, h]
  · simp [extract_node_features, latencyNormalized, h]

/-- Witness for `extract_features_total_defaults` with fully unreachable
telemetry and an unmeasured latency. -/
theorem extract_features_total_defaults_witness :
    (extract_node_features envNone nodeZ1 podTen [] []).length = 11 ∧
    get_feature_names.length = 11 ∧
    (extract_node_features envNone nodeZ1 podTen [] [])[3]? = some 0 ∧
    (extract_node_features envNone nodeZ1 podTen [] [])[4]? = some 0 ∧
    (extract_node_features envNone nodeZ1 podTen [] [])[2]? = some (1 / 2 : ℝ) := by
  obtain ⟨h1, h2, h3, h4, h5⟩ :=
    extract_features_total_defaults envNone nodeZ1 podTen [] []
  exact ⟨h1, h2, h3 rfl, h4 rfl, h5 rfl⟩

/-- C5 counterexample: a loaded model whose `predict` raises is not replaced
by the stub model's prediction — `ModelLoader.predict` has no handler around
`self.model.predict`, so the error propagates to the caller. -/
theorem model_predict_error_propagates :
    (loaderPredict loadedFailing [[1]]).1 = Except.error "boom" ∧
    (loaderPredict loadedFailing [[1]]).1 ≠ Except.ok (stubPredict [[1]]) := by
  have h : (loaderPredict loadedFailing [[1]]).1 = Except.error "boom" := rfl
  exact ⟨h, by rw [h]; exact fun hk => Except.noConfusion hk⟩

/-- C5 (amended): `ModelLoader.predict` never mutates the loader's
persistent state, and the call-scoped stub substitution happens exactly for
a loaded model that exposes neither `predict` nor `predict_proba`; an error
raised by the model's own `predict` propagates to the caller instead of
being substituted. -/
theorem loader_predict_frame_and_stub (st : LoaderState) (features : List (List ℚ)) :
    (loaderPredict st features).2 = st ∧
    (∀ m, is_loaded st = true → st.model = some m → st.scaler = none →
      m.predictFn = none → m.predictProbaFn = none →
      (loaderPredict st features).1 = Except.ok (stubPredict features)) ∧
    (∀ m p e, is_loaded st = true → st.model = some m → st.scaler = none →
      m.predictFn = some p → p features = Except.error e →
      (loaderPredict st features).1 = Except.error e) := by
  refine ⟨rfl, ?_, ?_⟩
  · intro m hld hm hsc hpf hppf
    simp [loaderPredict, loaderPredictResult, hld, hm, hsc, hpf, hppf]
  · intro m p e hld hm hsc hpf hpe
    simp [loaderPredict, loaderPredictResult, hld, hm, hsc, hpf, hpe]

/-- Witness for `loader_predict_frame_and_stub` on a loaded model without
`predict`/`predict_proba`: the state is unchanged and the stub's prediction
is returned. -/
theorem loader_predict_frame_and_stub_witness :
    (loaderPredict loadedBare [[1, 2]]).2 = loadedBare ∧
    (loaderPredict loadedBare [[1, 2]]).1 = Except.ok (stubPredict [[1, 2]]) :=
  ⟨(loader_predict_frame_and_stub loadedBare [[1, 2]]).1,
   (loader_predict_frame_and_stub loadedBare [[1, 2]]).2.1 bareModel rfl rfl rfl rfl rfl⟩

/-- C1: in the scenario with candidates A (cpu and memory load 0.8) and
B (loads 0.2), equal unit capacities, and a pod requesting 10% of each
node's capacity, both the extracted `balance_score` feature and the default
heuristic score are strictly higher for B than for A: placing on A projects
loads (0.9, 0.2) with standard deviation 0.35, placing on B projects
(0.8, 0.3) with standard deviation 0.25, and `exp(-25·0.25) > exp(-25·0.35)`. -/
theorem balance_prefers_underloaded_node :
    balance_score envAB nodeA podTen [nodeA, nodeB]
      < balance_score envAB nodeB podTen [nodeA, nodeB] ∧
    defaultHeuristicScore envAB podTen [nodeA, nodeB] nodeA
      < defaultHeuristicScore envAB podTen [nodeA, nodeB] nodeB := by
  have hfA : futureCpuLoad envAB podTen nodeA = 9 / 10 := by
    unfold futureCpuLoad
    rw [show _get_node_cpu_load envAB nodeA.name = 8 / 10 from rfl]
    norm_num [nodeA, podTen, min_def]
  have hfB : futureCpuLoad envAB podTen nodeB = 3 / 10 := by
    unfold futureCpuLoad
    rw [show _get_node_cpu_load envAB nodeB.name = 2 / 10 from rfl]
    norm_num [nodeB, podTen, min_def]
  have hfmA : futureMemLoad envAB podTen nodeA = 9 / 10 := by
    unfold futureMemLoad
    rw [show _get_node_memory_load envAB nodeA.name = 8 / 10 from rfl]
    norm_num [nodeA, podTen, min_def]
  have hfmB : futureMemLoad envAB podTen nodeB = 3 / 10 := by
    unfold futureMemLoad
    rw [show _get_node_memory_load envAB nodeB.name = 2 / 10 from rfl]
    norm_num [nodeB, podTen, min_def]
  have hcA : futureCpuLoads envAB podTen [nodeA, nodeB] nodeA = [9 / 10, 2 / 10] := by
    simp [futureCpuLoads, show nodeA.name = "A" from rfl, show nodeB.name = "B" from rfl,
      hfA, show _get_node_cpu_load envAB "B" = 2 / 10 from rfl]
  have hmA : futureMemLoads envAB podTen [nodeA, nodeB] nodeA = [9 / 10, 2 / 10] := by
    simp [futureMemLoads, show nodeA.name = "A" from rfl, show nodeB.name = "B" from rfl,
      hfmA, show _get_node_memory_load envAB "B" = 2 / 10 from rfl]
  have hcB : futureCpuLoads envAB podTen [nodeA, nodeB] nodeB = [8 / 10, 3 / 10] := by
    simp [futureCpuLoads, show nodeA.name = "A" from rfl, show nodeB.name = "B" from rfl,
      hfB, show _get_node_cpu_load envAB "A" = 8 / 10 from rfl]
  have hmB : futureMemLoads envAB podTen [nodeA, nodeB] nodeB = [8 / 10, 3 / 10] := by
    simp [futureMemLoads, show nodeA.name = "A" from rfl, show nodeB.name = "B" from rfl,
      hfmB, show _get_node_memory_load envAB "A" = 8 / 10 from rfl]
  have hvA : listVar [(9 : ℚ) / 10, 2 / 10] = (7 / 20) ^ 2 := by
    norm_num [listVar, listMean]
  have hvB : listVar [(8 : ℚ) / 10, 3 / 10] = (1 / 4) ^ 2 := by
    norm_num [listVar, listMean]
  have hbcA : balanceCore envAB podTen [nodeA, nodeB] nodeA
      = Real.exp (-25 * ((7 / 20 : ℚ) : ℝ)) :=
    balanceCore_eq_exp envAB podTen [nodeA, nodeB] nodeA (7 / 20) (by norm_num)
      (by rw [hcA]; norm_num) (by rw [hmA]; norm_num)
      (by rw [hcA]; exact hvA) (by rw [hmA]; exact hvA)
  have hbcB : balanceCore envAB podTen [nodeA, nodeB] nodeB
      = Real.exp (-25 * ((1 / 4 : ℚ) : ℝ)) :=
    balanceCore_eq_exp envAB podTen [nodeA, nodeB] nodeB (1 / 4) (by norm_num)
      (by rw [hcB]; norm_num) (by rw [hmB]; norm_num)
      (by rw [hcB]; exact hvB) (by rw [hmB]; exact hvB)
  have hexp : Real.exp (-25 * ((7 / 20 : ℚ) : ℝ)) < Real.exp (-25 * ((1 / 4 : ℚ) : ℝ)) := by
    apply Real.exp_lt_exp_of_lt
    push_cast
    norm_num
  constructor
  · unfold balance_score
    rw [if_pos (by norm_num), if_pos (by norm_num), hbcA, hbcB]
    exact hexp
  · have hcuA : cpuUsageScore (8 / 10) = 1 / 2 := by
      norm_num [cpuUsageScore, max_def]
    have hcuB : cpuUsageScore (2 / 10) = 9 / 10 := by
      norm_num [cpuUsageScore]
    unfold defaultHeuristicScore
    rw [show _get_node_cpu_load envAB nodeA.name = 8 / 10 from rfl,
      show _get_node_memory_load envAB nodeA.name = 8 / 10 from rfl,
      show _get_node_cpu_load envAB nodeB.name = 2 / 10 from rfl,
      show _get_node_memory_load envAB nodeB.name = 2 / 10 from rfl,
      hcuA, hcuB, hbcA, hbcB,
      show cpuRatio nodeA = 1 by norm_num [cpuRatio, nodeA],
      show memRatio nodeA = 1 by norm_num [memRatio, nodeA],
      show cpuRatio nodeB = 1 by norm_num [cpuRatio, nodeB],
      show memRatio nodeB = 1 by norm_num [memRatio, nodeB],
      show latencyTerm nodeA.network_latency = 0 from rfl,
      show latencyTerm nodeB.network_latency = 0 from rfl]
    push_cast
    linarith [hexp]

/-- C9: in the fallback heuristic an unmeasured (`None`) network latency
contributes exactly 0 — the 15% latency term is omitted, not replaced by
the 0.5 sentinel of feature extraction — so of two nodes identical in every
other input, the unmeasured one scores strictly lower than one with any
measured latency below 100 ms. -/
theorem heuristic_unmeasured_latency_scores_lower (env : TelemetryEnv) (pod : PodInfo)
    (A B : NodeInfo) (l : ℚ)
    (hname : A.name ≠ B.name)
    (hca : A.cpu_available = B.cpu_available)
    (hma : A.memory_available = B.memory_available)
    (hcc : A.cpu_capacity = B.cpu_capacity)
    (hmc : A.memory_capacity = B.memory_capacity)
    (hcl : env.cpuLoadOf A.name = env.cpuLoadOf B.name)
    (hml : env.memLoadOf A.name = env.memLoadOf B.name)
    (hA : A.network_latency = none) (hB : B.network_latency = some l) (hl : l < 100) :
    latencyTerm A.network_latency = 0 ∧
    defaultHeuristicScore env pod [A, B] A < defaultHeuristicScore env pod [A, B] B := by
  have hload : _get_node_cpu_load env A.name = _get_node_cpu_load env B.name := by
    unfold _get_node_cpu_load
    rw [hcl]
  have hloadm : _get_node_memory_load env A.name = _get_node_memory_load env B.name := by
    unfold _get_node_memory_load
    rw [hml]
  have hfut : futureCpuLoad env pod A = futureCpuLoad env pod B := by
    unfold futureCpuLoad
    rw [hcc, hload]
  have hfutm : futureMemLoad env pod A = futureMemLoad env pod B := by
    unfold futureMemLoad
    rw [hmc, hloadm]
  have hfcA : futureCpuLoads env pod [A, B] A
      = [futureCpuLoad env pod A, _get_node_cpu_load env B.name] := by
    unfold futureCpuLoads
    simp only [List.map_cons, List.map_nil, if_pos rfl, if_true,
      if_neg (fun e => hname (Eq.symm e))]
  have hfcB : futureCpuLoads env pod [A, B] B
      = [_get_node_cpu_load env A.name, futureCpuLoad env pod B] := by
    unfold futureCpuLoads
    simp only [List.map_cons, List.map_nil, if_pos rfl, if_true, if_neg hname]
  have hfmA : futureMemLoads env pod [A, B] A
      = [futureMemLoad env pod A, _get_node_memory_load env B.name] := by
    unfold futureMemLoads
    simp only [List.map_cons, List.map_nil, if_pos rfl, if_true,
      if_neg (fun e => hname (Eq.symm e))]
  have hfmB : futureMemLoads env pod [A, B] B
      = [_get_node_memory_load env A.name, futureMemLoad env pod B] := by
    unfold futureMemLoads
    simp only [List.map_cons, List.map_nil, if_pos rfl, if_true, if_neg hname]
  have hpermC : (futureCpuLoads env pod [A, B] A).Perm (futureCpuLoads env pod [A, B] B) := by
    rw [hfcA, hfcB, hfut, hload]
    exact List.Perm.swap _ _ _
  have hpermM : (futureMemLoads env pod [A, B] A).Perm (futureMemLoads env pod [A, B] B) := by
    rw [hfmA, hfmB, hfutm, hloadm]
    exact List.Perm.swap _ _ _
  have hbal : balanceCore env pod [A, B] A = balanceCore env pod [A, B] B := by
    unfold balanceCore
    rw [stdTerm_perm hpermC, stdTerm_perm hpermM]
  have hratioC : cpuRatio A = cpuRatio B := by
    unfold cpuRatio
    rw [hcc, hca]
  have hratioM : memRatio A = memRatio B := by
    unfold memRatio
    rw [hmc, hma]
  have hlat : 0 < latencyTerm B.network_latency := by
    rw [hB]
    unfold latencyTerm
    have hmin : min 1 (l / 100) < 1 := min_lt_iff.mpr (Or.inr (by linarith))
    have hmin' : ((min 1 (l / 100) : ℚ) : ℝ) < 1 := by exact_mod_cast hmin
    have hbase : (0 : ℝ) < 1 - ((min 1 (l / 100) : ℚ) : ℝ) := by linarith
    exact mul_pos (Real.rpow_pos_of_pos hbase (1.5 : ℝ)) (by norm_num)
  refine ⟨by rw [hA]; rfl, ?_⟩
  unfold defaultHeuristicScore
  rw [hload, hloadm, hratioC, hratioM, hbal, hA,
    show latencyTerm none = 0 from rfl]
  linarith [hlat]

/-- Witness for `heuristic_unmeasured_latency_scores_lower`: `nodeL1`
(unmeasured) against `nodeL2` (10 ms), equal in every other field, under
unreachable telemetry. -/
theorem heuristic_unmeasured_latency_scores_lower_witness :
    latencyTerm nodeL1.network_latency = 0 ∧
    defaultHeuristicScore envNone podTen [nodeL1, nodeL2] nodeL1
      < defaultHeuristicScore envNone podTen [nodeL1, nodeL2] nodeL2 :=
  heuristic_unmeasured_latency_scores_lower envNone podTen nodeL1 nodeL2 10
    (by decide) rfl rfl rfl rfl rfl rfl rfl rfl (by norm_num)

end Scheduler
